import Mathlib

set_option autoImplicit false

namespace YtCollector

/-! Shallow embedding of the resumable crawl/checkpoint engine of the
`youtubecollector` package (`ytcollector.py` and `ytcollector_class.py`).

The pager (`query_all_items` with `init_pager` / `check_quota_exceeded_tmp`)
is modelled over an abstract fetch oracle `Option Nat → FetchResult`:
continuation tokens are numbers, pages carry an opaque numeric payload and
an optional next token, and an `HttpError` is modelled by its unpacked
reason (`none` for an error whose reason `unpack_http_error` cannot
extract).  The temp-file checkpoint for one item id is a `Store`
(`Option DataClassPager`).  The `while` loop takes a fuel parameter; the
run additionally records the list of tokens passed to the fetcher, which is
the trace of issued page requests. -/

/-- A single API response page: an opaque payload together with the
optional continuation token (the `nextPageToken` field of the response). -/
structure Page where
  data : Nat
  nextToken : Option Nat
  deriving Repr, DecidableEq

/-- Result of one call of the paged fetch function (`pager_func` in the
source): a page, or an `HttpError` carrying an optional unpacked reason. -/
inductive FetchResult where
  | page (p : Page)
  | err (reason : Option String)

/-- Embedding of the `DataClassPager` dataclass of `ytcollector.py`. -/
structure DataClassPager where
  responses : List Page
  next_page_token : Option Nat := none
  all_items_collected : Bool := false
  num_requests : Nat := 0
  deriving Repr, DecidableEq

/-- The temp-file checkpoint slot for one item id (`temp-{item_id}.pkl`):
`none` when the file does not exist. -/
abbrev Store := Option DataClassPager

/-- Embedding of `init_pager`: load the checkpoint when the temp file
exists, otherwise start a fresh pager with an empty response list. -/
def init_pager (store : Store) : DataClassPager :=
  match store with
  | some pd => pd
  | none => { responses := [] }

/-- Embedding of `check_quota_exceeded_tmp`: when the reason of the caught
`HttpError` unpacks to `quotaExceeded`, save the current pager data to the
temp checkpoint; the error itself is re-raised by the caller in every
case. -/
def check_quota_exceeded_tmp (reason : Option String) (pd : DataClassPager)
    (store : Store) : Store :=
  match reason with
  | none => store
  | some r => if r = "quotaExceeded" then some pd else store

/-- Outcome of a run of `query_all_items`: the returned response list, or
the reason of the propagated error. -/
inductive RunResult where
  | ok (responses : List Page)
  | err (reason : Option String)
  deriving Repr, DecidableEq

/-- Embedding of the `while not pager_data.all_items_collected` loop of
`query_all_items`.  `fuel` bounds the number of iterations; `calls`
accumulates, most recent first, the tokens passed to the fetcher.  The
result is `none` when the fuel runs out, otherwise the run result, the
final checkpoint slot, and the issued fetch calls in order. -/
def query_loop (fetch : Option Nat → FetchResult) :
    Nat → DataClassPager → Store → List (Option Nat) →
    Option (RunResult × Store × List (Option Nat))
  | 0, _, _, _ => none
  | fuel + 1, pd, store, calls =>
    if pd.all_items_collected then
      some (.ok pd.responses, store, calls.reverse)
    else
      match fetch pd.next_page_token with
      | .err reason =>
        some (.err reason, check_quota_exceeded_tmp reason pd store,
          (pd.next_page_token :: calls).reverse)
      | .page p =>
        match p.nextToken with
        | some t =>
          query_loop fetch fuel
            { responses := pd.responses ++ [p], next_page_token := some t,
              all_items_collected := pd.all_items_collected,
              num_requests := pd.num_requests + 1 }
            store (pd.next_page_token :: calls)
        | none =>
          let pd2 : DataClassPager :=
            { responses := pd.responses ++ [p],
              next_page_token := pd.next_page_token,
              all_items_collected := true,
              num_requests := pd.num_requests + 1 }
          some (.ok pd2.responses, some pd2, (pd.next_page_token :: calls).reverse)

/-- Embedding of `query_all_items` for one item id: initialise the pager
from the checkpoint slot and run the paging loop. -/
def query_all_items (fetch : Option Nat → FetchResult) (fuel : Nat)
    (store : Store) : Option (RunResult × Store × List (Option Nat)) :=
  query_loop fetch fuel (init_pager store) store []

/-- Index denoted by a continuation token: the absent token denotes the
first page (index 0), token `some i` denotes page index `i`. -/
def tokIdx : Option Nat → Nat
  | none => 0
  | some i => i

/-- The page at index `i` of a linear feed with payloads `ds`: it carries
continuation token `some (i + 1)` unless it is the last page. -/
def pageAt (ds : List Nat) (i : Nat) : Page :=
  { data := ds.getD i 0,
    nextToken := if i + 1 < ds.length then some (i + 1) else none }

/-- A fetch oracle that serves the whole linear feed `ds` successfully. -/
def fetchLin (ds : List Nat) (t : Option Nat) : FetchResult :=
  if tokIdx t < ds.length then .page (pageAt ds (tokIdx t))
  else .err (some "badRequest")

/-- A fetch oracle that serves the pages of the linear feed `ds` with
index below `k` and raises a quota-exceeded `HttpError` from index `k`
on (the quota runs out after `k` successful page requests). -/
def fetchQuota (ds : List Nat) (k : Nat) (t : Option Nat) : FetchResult :=
  if tokIdx t < k then fetchLin ds t else .err (some "quotaExceeded")

/-- The pager state that `check_quota_exceeded_tmp` persists when
`fetchQuota ds k` exhausts the quota on a fresh run: the first `k` pages
of the feed and the continuation token carried by the `k`-th page. -/
def quotaCkpt (ds : List Nat) (k : Nat) : DataClassPager :=
  { responses := (List.range' 0 k).map (pageAt ds),
    next_page_token := if 0 = k then none else some k,
    all_items_collected := false,
    num_requests := k }

example :
    query_all_items (fetchQuota [5, 6, 7] 2) 10 none =
      some (.err (some "quotaExceeded"), some (quotaCkpt [5, 6, 7] 2),
        [none, some 1, some 2]) := by decide

example :
    query_all_items (fetchLin [5, 6, 7]) 10 (some (quotaCkpt [5, 6, 7] 2)) =
      some (.ok ([⟨5, some 1⟩, ⟨6, some 2⟩, ⟨7, none⟩] : List Page),
        some { responses := [⟨5, some 1⟩, ⟨6, some 2⟩, ⟨7, none⟩],
               next_page_token := some 2, all_items_collected := true,
               num_requests := 3 },
        [some 2]) := by decide

/-- Running the paging loop against `fetchLin ds` from page index `i`
(with matching token `t`) appends the remaining pages `i .. ds.length - 1`,
marks the pager complete, persists the completed state and issues exactly
one fetch call per remaining page. -/
theorem query_loop_fetchLin (ds : List Nat) (fuel : Nat) :
    ∀ (i : Nat) (t : Option Nat) (acc : List Page) (r : Nat) (store : Store)
      (calls : List (Option Nat)),
      tokIdx t = i → i < ds.length → ds.length - i ≤ fuel →
      query_loop (fetchLin ds) fuel
          { responses := acc, next_page_token := t,
            all_items_collected := false, num_requests := r } store calls
        = some (.ok (acc ++ (List.range' i (ds.length - i)).map (pageAt ds)),
            some { responses := acc ++ (List.range' i (ds.length - i)).map (pageAt ds),
                   next_page_token :=
                     if i + 1 = ds.length then t else some (ds.length - 1),
                   all_items_collected := true,
                   num_requests := r + (ds.length - i) },
            calls.reverse ++ t :: (List.range' (i + 1) (ds.length - (i + 1))).map some) := by
  induction fuel with
  | zero =>
    intro i t acc r store calls ht hi hf
    omega
  | succ fuel ih =>
    intro i t acc r store calls ht hi hf
    have hfetch : fetchLin ds t = .page (pageAt ds i) := by
      simp [fetchLin, ht, hi]
    by_cases hlast : i + 1 = ds.length
    · have hnt : (pageAt ds i).nextToken = none := by
        simp [pageAt]
        omega
      have h1 : ds.length - i = 1 := by omega
      have h0 : ds.length - (i + 1) = 0 := by omega
      simp [query_loop, hfetch, hnt, h1, h0, List.range'_one, if_pos hlast]
    · have hlt : i + 1 < ds.length := by omega
      have hnt : (pageAt ds i).nextToken = some (i + 1) := by
        simp [pageAt, hlt]
      rw [show query_loop (fetchLin ds) (fuel + 1)
            { responses := acc, next_page_token := t,
              all_items_collected := false, num_requests := r } store calls
          = query_loop (fetchLin ds) fuel
              { responses := acc ++ [pageAt ds i], next_page_token := some (i + 1),
                all_items_collected := false, num_requests := r + 1 }
              store (t :: calls) from by
        simp [query_loop, hfetch, hnt]]
      rw [ih (i + 1) (some (i + 1)) (acc ++ [pageAt ds i]) (r + 1) store (t :: calls)
        rfl hlt (by omega)]
      have hresp : (acc ++ [pageAt ds i]) ++
            (List.range' (i + 1) (ds.length - (i + 1))).map (pageAt ds)
          = acc ++ (List.range' i (ds.length - i)).map (pageAt ds) := by
        rw [show ds.length - i = (ds.length - (i + 1)) + 1 from by omega,
          List.range'_succ]
        simp
      have htok : (if i + 1 + 1 = ds.length then some (i + 1)
            else some (ds.length - 1))
          = (if i + 1 = ds.length then t else some (ds.length - 1)) := by
        rw [if_neg hlast]
        split
        · congr 1
          omega
        · rfl
      have hcalls : (t :: calls).reverse ++ some (i + 1) ::
            (List.range' (i + 1 + 1) (ds.length - (i + 1 + 1))).map some
          = calls.reverse ++ t ::
            (List.range' (i + 1) (ds.length - (i + 1))).map some := by
        rw [show ds.length - (i + 1) = (ds.length - (i + 1 + 1)) + 1 from by omega,
          List.range'_succ]
        simp
      rw [hresp, htok, hcalls, show r + 1 + (ds.length - (i + 1)) = r + (ds.length - i)
        from by omega]

/-- Running the paging loop against `fetchQuota ds k` from page index
`i ≤ k` appends pages `i .. k - 1`, then the quota error strikes; the
partial pager state with exactly those pages and the token of page `k`
is persisted to the checkpoint slot before the error propagates. -/
theorem query_loop_fetchQuota (ds : List Nat) (k : Nat) (hk : k < ds.length)
    (fuel : Nat) :
    ∀ (i : Nat) (t : Option Nat) (acc : List Page) (r : Nat) (store : Store)
      (calls : List (Option Nat)),
      tokIdx t = i → i ≤ k → k - i < fuel →
      query_loop (fetchQuota ds k) fuel
          { responses := acc, next_page_token := t,
            all_items_collected := false, num_requests := r } store calls
        = some (.err (some "quotaExceeded"),
            some { responses := acc ++ (List.range' i (k - i)).map (pageAt ds),
                   next_page_token := if i = k then t else some k,
                   all_items_collected := false,
                   num_requests := r + (k - i) },
            calls.reverse ++ t :: (List.range' (i + 1) (k - i)).map some) := by
  induction fuel with
  | zero =>
    intro i t acc r store calls ht hi hf
    omega
  | succ fuel ih =>
    intro i t acc r store calls ht hi hf
    by_cases hik : i = k
    · have hfetch : fetchQuota ds k t = .err (some "quotaExceeded") := by
        simp [fetchQuota, ht, hik]
      have h0 : k - i = 0 := by omega
      simp [query_loop, hfetch, check_quota_exceeded_tmp, h0, if_pos hik]
    · have hilt : i < k := by omega
      have hfetch : fetchQuota ds k t = .page (pageAt ds i) := by
        have hlen : i < ds.length := by omega
        simp [fetchQuota, fetchLin, ht, hilt, hlen]
      have hnt : (pageAt ds i).nextToken = some (i + 1) := by
        simp [pageAt]
        omega
      rw [show query_loop (fetchQuota ds k) (fuel + 1)
            { responses := acc, next_page_token := t,
              all_items_collected := false, num_requests := r } store calls
          = query_loop (fetchQuota ds k) fuel
              { responses := acc ++ [pageAt ds i], next_page_token := some (i + 1),
                all_items_collected := false, num_requests := r + 1 }
              store (t :: calls) from by
        simp [query_loop, hfetch, hnt]]
      rw [ih (i + 1) (some (i + 1)) (acc ++ [pageAt ds i]) (r + 1) store (t :: calls)
        rfl (by omega) (by omega)]
      have hresp : (acc ++ [pageAt ds i]) ++
            (List.range' (i + 1) (k - (i + 1))).map (pageAt ds)
          = acc ++ (List.range' i (k - i)).map (pageAt ds) := by
        rw [show k - i = (k - (i + 1)) + 1 from by omega, List.range'_succ]
        simp
      have htok : (if i + 1 = k then some (i + 1) else some k)
          = (if i = k then t else some k) := by
        rw [if_neg hik]
        split
        · next h => rw [h]
        · rfl
      have hcalls : (t :: calls).reverse ++ some (i + 1) ::
            (List.range' (i + 1 + 1) (k - (i + 1))).map some
          = calls.reverse ++ t :: (List.range' (i + 1) (k - i)).map some := by
        rw [show k - i = (k - (i + 1)) + 1 from by omega, List.range'_succ]
        simp
      rw [hresp, htok, hcalls, show r + 1 + (k - (i + 1)) = r + (k - i)
        from by omega]

/-- C1: for a paginated collection run on an item id, if the fetch raises
an error classified `quotaExceeded` after `k` pages have been appended,
the checkpoint persisted before the error propagates contains exactly
those `k` pages and the continuation token carried by page `k`, and a
later invocation for the same id resumes at the stored token (it is the
first issued fetch call) and issues no fetch call for pages `1 .. k`. -/
theorem C1_quota_checkpoint_and_resume (ds : List Nat) (k fuel1 fuel2 : Nat)
    (hk : 1 ≤ k) (hkn : k < ds.length) (hf1 : k + 1 ≤ fuel1)
    (hf2 : ds.length - k ≤ fuel2) :
    query_all_items (fetchQuota ds k) fuel1 none =
        some (.err (some "quotaExceeded"), some (quotaCkpt ds k),
          none :: (List.range' 1 k).map some) ∧
    (quotaCkpt ds k).responses = (List.range' 0 k).map (pageAt ds) ∧
    (quotaCkpt ds k).responses.length = k ∧
    (quotaCkpt ds k).next_page_token = (pageAt ds (k - 1)).nextToken ∧
    (∃ storeF,
      query_all_items (fetchLin ds) fuel2 (some (quotaCkpt ds k)) =
        some (.ok ((List.range' 0 ds.length).map (pageAt ds)), storeF,
          some k :: (List.range' (k + 1) (ds.length - (k + 1))).map some)) ∧
    (some k :: (List.range' (k + 1) (ds.length - (k + 1))).map some).head? =
      some (quotaCkpt ds k).next_page_token ∧
    (∀ c ∈ some k :: (List.range' (k + 1) (ds.length - (k + 1))).map some,
      k ≤ tokIdx c) := by
  have hk0 : ¬(0 = k) := by omega
  have hck : quotaCkpt ds k =
      { responses := (List.range' 0 k).map (pageAt ds),
        next_page_token := some k, all_items_collected := false,
        num_requests := k } := by
    simp only [quotaCkpt]
    rw [if_neg hk0]
  rw [hck]
  refine ⟨?_, rfl, by simp, ?_, ?_, rfl, ?_⟩
  · unfold query_all_items
    rw [show init_pager none =
        { responses := [], next_page_token := none,
          all_items_collected := false, num_requests := 0 } from rfl]
    rw [query_loop_fetchQuota ds k hkn fuel1 0 none [] 0 none [] rfl
      (by omega) (by omega)]
    simp [hk0]
  · have hkk : k - 1 + 1 = k := by omega
    rw [pageAt, hkk, if_pos hkn]
  · have hmaps : (List.range' 0 k).map (pageAt ds) ++
        (List.range' k (ds.length - k)).map (pageAt ds)
        = (List.range' 0 ds.length).map (pageAt ds) := by
      rw [← List.map_append]
      congr 1
      have harr := List.range'_append_1 0 k (ds.length - k)
      rw [show (0 : Nat) + k = k from by omega,
        show ds.length - k + k = ds.length from by omega] at harr
      exact harr
    have hrun : query_all_items (fetchLin ds) fuel2
        (some { responses := (List.range' 0 k).map (pageAt ds),
                next_page_token := some k, all_items_collected := false,
                num_requests := k }) =
        some (.ok ((List.range' 0 ds.length).map (pageAt ds)),
          some { responses := (List.range' 0 ds.length).map (pageAt ds),
                 next_page_token := if k + 1 = ds.length then some k
                   else some (ds.length - 1),
                 all_items_collected := true,
                 num_requests := k + (ds.length - k) },
          some k :: (List.range' (k + 1) (ds.length - (k + 1))).map some) := by
      unfold query_all_items
      rw [show init_pager (some
          { responses := (List.range' 0 k).map (pageAt ds),
            next_page_token := some k, all_items_collected := false,
            num_requests := k }) =
          { responses := (List.range' 0 k).map (pageAt ds),
            next_page_token := some k, all_items_collected := false,
            num_requests := k } from rfl]
      rw [query_loop_fetchLin ds fuel2 k (some k) ((List.range' 0 k).map (pageAt ds))
        k (some { responses := (List.range' 0 k).map (pageAt ds),
                  next_page_token := some k, all_items_collected := false,
                  num_requests := k }) [] rfl hkn hf2]
      rw [hmaps]
      simp
    exact ⟨_, hrun⟩
  · intro c hc
    rcases List.mem_cons.mp hc with h | h
    · subst h
      simp [tokIdx]
    · obtain ⟨j, hj, rfl⟩ := List.mem_map.mp h
      simp only [List.mem_range'_1] at hj
      simp [tokIdx]
      omega

/-- C1 witness: a three-page feed interrupted by quota exhaustion after
two pages, then resumed to completion. -/
theorem C1_quota_checkpoint_and_resume_witness :
    1 ≤ 2 ∧ 2 < ([5, 6, 7] : List Nat).length ∧ 2 + 1 ≤ 4 ∧
    ([5, 6, 7] : List Nat).length - 2 ≤ 4 ∧
    (query_all_items (fetchQuota [5, 6, 7] 2) 4 none =
        some (.err (some "quotaExceeded"), some (quotaCkpt [5, 6, 7] 2),
          none :: (List.range' 1 2).map some) ∧
      (quotaCkpt [5, 6, 7] 2).responses = (List.range' 0 2).map (pageAt [5, 6, 7]) ∧
      (quotaCkpt [5, 6, 7] 2).responses.length = 2 ∧
      (quotaCkpt [5, 6, 7] 2).next_page_token = (pageAt [5, 6, 7] (2 - 1)).nextToken ∧
      (∃ storeF,
        query_all_items (fetchLin [5, 6, 7]) 4 (some (quotaCkpt [5, 6, 7] 2)) =
          some (.ok ((List.range' 0 ([5, 6, 7] : List Nat).length).map (pageAt [5, 6, 7])),
            storeF,
            some 2 :: (List.range' (2 + 1) (([5, 6, 7] : List Nat).length - (2 + 1))).map some)) ∧
      (some 2 :: (List.range' (2 + 1) (([5, 6, 7] : List Nat).length - (2 + 1))).map some).head? =
        some (quotaCkpt [5, 6, 7] 2).next_page_token ∧
      (∀ c ∈ some 2 :: (List.range' (2 + 1) (([5, 6, 7] : List Nat).length - (2 + 1))).map some,
        2 ≤ tokIdx c)) :=
  ⟨by decide, by decide, by decide, by decide,
    C1_quota_checkpoint_and_resume [5, 6, 7] 2 4 4 (by decide) (by decide)
      (by decide) (by decide)⟩

/-- Whenever the paging loop returns normally, the final checkpoint slot
holds a pager state that is marked complete and whose stored responses are
exactly the returned page sequence (precondition: if the pager is already
complete at entry, it was loaded from the checkpoint slot). -/
theorem query_loop_ok_completed (fetch : Option Nat → FetchResult) :
    ∀ (fuel : Nat) (pd : DataClassPager) (store : Store)
      (calls callsOut : List (Option Nat)) (rs : List Page) (store' : Store),
      (pd.all_items_collected = true → store = some pd) →
      query_loop fetch fuel pd store calls = some (.ok rs, store', callsOut) →
      ∃ pd', store' = some pd' ∧ pd'.all_items_collected = true ∧
        pd'.responses = rs := by
  intro fuel
  induction fuel with
  | zero =>
    intro pd store calls callsOut rs store' hpre h
    simp [query_loop] at h
  | succ fuel ih =>
    intro pd store calls callsOut rs store' hpre h
    rw [query_loop] at h
    split at h
    · rename_i hc
      simp only [Option.some.injEq, Prod.mk.injEq, RunResult.ok.injEq] at h
      exact ⟨pd, by rw [← h.2.1]; exact hpre hc, hc, h.1⟩
    · rename_i hc
      split at h
      · simp at h
      · rename_i p hfe
        split at h
        · rename_i t hnt
          refine ih _ _ _ _ _ _ ?_ h
          intro hcc
          exact absurd hcc hc
        · rename_i hnt
          simp only [Option.some.injEq, Prod.mk.injEq, RunResult.ok.injEq] at h
          refine ⟨_, h.2.1.symm, rfl, ?_⟩
          simpa using h.1

/-- C2: once a run of `query_all_items` has completed for an item id (the
completion checkpoint exists), any later invocation for the same id
issues zero page fetches and returns the page sequence of the completing
call, for any fetch oracle. -/
theorem C2_completed_rerun_identical
    (fetch1 fetch2 : Option Nat → FetchResult) (fuel1 fuel2 : Nat)
    (store store1 : Store) (rs : List Page) (calls1 : List (Option Nat))
    (h1 : query_all_items fetch1 fuel1 store = some (.ok rs, store1, calls1))
    (hfuel : 1 ≤ fuel2) :
    query_all_items fetch2 fuel2 store1 = some (.ok rs, store1, []) := by
  have hpre : (init_pager store).all_items_collected = true → store = some (init_pager store) := by
    cases store <;> simp [init_pager]
  obtain ⟨pd', hst, hcomp, hresp⟩ :=
    query_loop_ok_completed fetch1 fuel1 (init_pager store) store [] calls1 rs store1 hpre h1
  subst hst
  obtain ⟨m, rfl⟩ : ∃ m, fuel2 = m + 1 := ⟨fuel2 - 1, by omega⟩
  unfold query_all_items
  rw [show init_pager (some pd') = pd' from rfl, query_loop, if_pos hcomp, hresp]
  rfl

/-- C2 witness: complete a two-page collection, then rerun it against a
fetch oracle that always fails; the rerun still returns the identical
pages with zero fetch calls. -/
theorem C2_completed_rerun_identical_witness :
    query_all_items (fetchLin [1, 2]) 5 none =
        some (.ok [pageAt [1, 2] 0, pageAt [1, 2] 1],
          some { responses := [pageAt [1, 2] 0, pageAt [1, 2] 1],
                 next_page_token := some 1, all_items_collected := true,
                 num_requests := 2 },
          [none, some 1]) ∧
    1 ≤ 3 ∧
    query_all_items (fetchQuota [1, 2] 0) 3
        (some { responses := [pageAt [1, 2] 0, pageAt [1, 2] 1],
                next_page_token := some 1, all_items_collected := true,
                num_requests := 2 }) =
      some (.ok [pageAt [1, 2] 0, pageAt [1, 2] 1],
        some { responses := [pageAt [1, 2] 0, pageAt [1, 2] 1],
               next_page_token := some 1, all_items_collected := true,
               num_requests := 2 },
        []) :=
  ⟨by decide, by decide,
    C2_completed_rerun_identical (fetchLin [1, 2]) (fetchQuota [1, 2] 0) 5 3
      none _ _ [none, some 1] (by decide) (by decide)⟩

/-! Embedding of the comment-collection loop of `YtEntityData`
(`ytcollector_class.py`).  Video ids are opaque strings in the source and
are modelled as numbers.  The mutable attributes driving the loop form a
`CrawlState`: `videos_ids_to_collect` is a python list popped from its end
by `list.pop()` (so the end of the list is the front of the pending
queue), `temp_id_storage` is the in-flight buffer, `collected_video_ids`
and `videos_with_comments_disabled` are the collected/disabled lists, `i`
is the flush counter and `responses_toplevel` holds the insertion-ordered
keys of the in-memory comment dictionary.  `flush_log` records, for each
`save_comments` call, the key list of the in-memory dictionary that the
call persists (`save_response_comments` merges only new keys into the
file, and in a run that starts from an empty file the in-memory dictionary
always contains every previously persisted key, so the persisted key set
equals the in-memory key set). -/

/-- The comment-collection state of a `YtEntityData` object. -/
structure CrawlState where
  videos_ids_to_collect : List Nat
  temp_id_storage : List Nat
  collected_video_ids : List Nat
  videos_with_comments_disabled : List Nat
  i : Nat
  responses_toplevel : List Nat
  flush_log : List (List Nat)
  deriving Repr, DecidableEq

/-- Embedding of `get_videoids_to_collect` plus `setup_comment_collector`
for a fresh channel: the pending list is the reversed dataframe id list,
nothing is collected, `i = len(collected_video_ids) = 0`, and the
buffers are empty. -/
def setup_comment_collector (video_ids_df : List Nat) : CrawlState :=
  { videos_ids_to_collect := video_ids_df.reverse,
    temp_id_storage := [],
    collected_video_ids := [],
    videos_with_comments_disabled := [],
    i := 0,
    responses_toplevel := [],
    flush_log := [] }

/-- Embedding of `get_video_id_to_collect`: pop the end of the pending
list (`list.pop()`) and park the id in the in-flight buffer; `none` when
the pending list is empty (the loop guard rules this out in the source). -/
def get_video_id_to_collect (s : CrawlState) : Option (Nat × CrawlState) :=
  match s.videos_ids_to_collect.getLast? with
  | none => none
  | some vid =>
    some (vid,
      { s with videos_ids_to_collect := s.videos_ids_to_collect.dropLast,
               temp_id_storage := s.temp_id_storage ++ [vid] })

/-- Behaviour of `collect_comments_video` for one video id: it either
succeeds or raises an `HttpError` whose unpacked reason is given (`none`
models an error whose reason `unpack_http_error` cannot extract). -/
inductive CollectOutcome where
  | success
  | httpError (reason : Option String)
  deriving Repr, DecidableEq

/-- Embedding of `collect_comments_video` at the level of dictionary keys:
on success the video id becomes a key of `responses_toplevel`; on an
`HttpError` nothing is recorded and the error propagates. -/
def collect_comments_video (oracle : Nat → CollectOutcome) (vid : Nat)
    (s : CrawlState) : Except (Option String) CrawlState :=
  match oracle vid with
  | .success => .ok { s with responses_toplevel := s.responses_toplevel ++ [vid] }
  | .httpError reason => .error reason

/-- Embedding of `handle_disabled_comments_error`: a reason unpacking to
`commentsDisabled` appends the video id to the disabled list and is
absorbed; every other reason — and an error whose reason cannot be
unpacked — is re-raised. -/
def handle_disabled_comments_error (reason : Option String) (vid : Nat)
    (s : CrawlState) : Except (Option String) CrawlState :=
  match reason with
  | none => .error none
  | some r =>
    if r = "commentsDisabled" then
      .ok { s with videos_with_comments_disabled :=
              s.videos_with_comments_disabled ++ [vid] }
    else
      .error (some r)

/-- Embedding of `safe_collect_comments_video`: run the collection and
hand any `HttpError` to `handle_disabled_comments_error`. -/
def safe_collect_comments_video (oracle : Nat → CollectOutcome) (vid : Nat)
    (s : CrawlState) : Except (Option String) CrawlState :=
  match collect_comments_video oracle vid s with
  | .ok s' => .ok s'
  | .error reason => handle_disabled_comments_error reason vid s

/-- Embedding of `save_comments` (together with the tmp-folder flush that
accompanies it): record the persisted key list as one flush event. -/
def save_comments (s : CrawlState) : CrawlState :=
  { s with flush_log := s.flush_log ++ [s.responses_toplevel] }

/-- Embedding of `bookkeeping_comments`: flush when `i % 50 == 0` (the
check happens before `i` is incremented), then append the video id to the
collected list, pop the in-flight buffer and increment `i`. -/
def bookkeeping_comments (vid : Nat) (s : CrawlState) : CrawlState :=
  let s1 := if s.i % 50 = 0 then save_comments s else s
  { s1 with collected_video_ids := s1.collected_video_ids ++ [vid],
            temp_id_storage := s1.temp_id_storage.dropLast,
            i := s1.i + 1 }

/-- Result of one iteration of the `collect_comments` loop. -/
inductive StepResult where
  | done (s : CrawlState)
  | next (s : CrawlState)
  | raised (reason : Option String) (s : CrawlState)
  deriving Repr, DecidableEq

/-- One iteration of the `while self.videos_ids_to_collect` loop of
`collect_comments`: take the next id, collect its comments absorbing a
`commentsDisabled` error, and do the bookkeeping.  Any other `HttpError`
propagates (towards the `error_api_method` decorator) with the in-flight
buffer still holding the failing id. -/
def comment_step (oracle : Nat → CollectOutcome) (s : CrawlState) : StepResult :=
  match get_video_id_to_collect s with
  | none => .done s
  | some (vid, s1) =>
    match safe_collect_comments_video oracle vid s1 with
    | .ok s2 => .next (bookkeeping_comments vid s2)
    | .error reason => .raised reason s1

/-- Result of a full run of the `collect_comments` loop. -/
inductive LoopResult where
  | finished (s : CrawlState)
  | raised (reason : Option String) (s : CrawlState)
  deriving Repr, DecidableEq

/-- Embedding of the `collect_comments` loop body: iterate `comment_step`
until the pending list empties, then run the final `save_comments`
(`collect_comments` saves once more after the last iteration).  `fuel`
bounds the number of iterations. -/
def collect_comments_loop (oracle : Nat → CollectOutcome) :
    Nat → CrawlState → Option LoopResult
  | 0, _ => none
  | fuel + 1, s =>
    match comment_step oracle s with
    | .done s' => some (.finished (save_comments s'))
    | .next s' => collect_comments_loop oracle fuel s'
    | .raised reason s' => some (.raised reason s')

/-- The flush log of a finished run, when the run finished. -/
def flushLogOf : Option LoopResult → Option (List (List Nat))
  | some (.finished s) => some s.flush_log
  | _ => none

/-- Checks that each recorded flush persists a superset of the previous
flush's key set. -/
def monotoneFlushes : List (List Nat) → Bool
  | [] => true
  | [_] => true
  | a :: b :: rest => a.all (b.contains ·) && monotoneFlushes (b :: rest)

set_option maxRecDepth 100000

/-- C3 counterexample: with flush period 50 and a fresh start, a run that
successfully processes 123 items performs 4 flushes — when 1, 51, 101 and
123 items have been processed — because `bookkeeping_comments` tests
`i % 50 == 0` before incrementing `i`; the claimed cadence
`[50, 100, 123]` (3 flushes) is not what the code does. -/
theorem C3_flush_cadence_counterexample :
    (flushLogOf (collect_comments_loop (fun _ => CollectOutcome.success) 124
          (setup_comment_collector (List.range 123)))).map
        (fun fl => fl.map List.length)
      = some [1, 51, 101, 123] ∧
    some [1, 51, 101, 123] ≠ some [50, 100, 123] ∧
    ([1, 51, 101, 123] : List Nat).length ≠ 3 := by
  refine ⟨by decide, by decide, by decide⟩

/-- C3 (amended): with flush period N = 50 and a fresh start, a
comment-collection run that successfully processes 123 items performs
exactly 4 flushes, occurring when 1, 51, 101 and 123 items have been
processed, and each flush's persisted Collected set is a superset of the
prior flush's. -/
theorem C3_flush_cadence_amended :
    (flushLogOf (collect_comments_loop (fun _ => CollectOutcome.success) 124
          (setup_comment_collector (List.range 123)))).map
        (fun fl => fl.map List.length)
      = some [1, 51, 101, 123] ∧
    (flushLogOf (collect_comments_loop (fun _ => CollectOutcome.success) 124
          (setup_comment_collector (List.range 123)))).map monotoneFlushes
      = some true := by
  refine ⟨by decide, by decide⟩

/-- Embedding of `put_videoid_in_buffer_back`: when the in-flight buffer
is non-empty, pop it and append the id to the end of the pending list —
the end is what `list.pop()` returns next, i.e. the front of the pending
queue. -/
def put_videoid_in_buffer_back (s : CrawlState) : CrawlState :=
  match s.temp_id_storage.getLast? with
  | none => s
  | some vid =>
    { s with temp_id_storage := s.temp_id_storage.dropLast,
             videos_ids_to_collect := s.videos_ids_to_collect ++ [vid] }

/-- Embedding of `handle_http_error`: first requeue the in-flight id, then
raise an `AssertionError` (second component: its message) for a
`quotaExceeded`, `forbidden` or `accessNotConfigured` reason; for every
other reason — including one that cannot be unpacked — sleep and return so
that the decorator's loop retries.  The third component records the slept
delay: 2 when the reason cannot be unpacked, 5 for any other retried
reason, 0 when the function raises instead of sleeping. -/
def handle_http_error (reason : Option String) (s : CrawlState) :
    CrawlState × Option String × Nat :=
  let s1 := put_videoid_in_buffer_back s
  match reason with
  | none => (s1, none, 2)
  | some r =>
    if r = "quotaExceeded" then
      (s1, some "Quota limit exceeded. Wait until quotaLimit expires.", 0)
    else if r = "forbidden" then
      (s1, some "API key is suspended.", 0)
    else if r = "accessNotConfigured" then
      (s1, some "API key not activated, activate it at google cloud", 0)
    else
      (s1, none, 5)

/-- The retry bound of `ytcollector_class.py` (`RETRY_TIMES = 10`). -/
def RETRY_TIMES : Nat := 10

/-- Behaviour of one attempt of a method wrapped by `error_api_method`:
return normally, or raise an `HttpError` with the given unpacked reason. -/
inductive AttemptOutcome where
  | ok
  | raise (reason : Option String)

/-- Result of a call of a method decorated by `error_api_method`. -/
inductive DecResult where
  | ok
  | assertionError (msg : String)
  | fellThrough
  deriving Repr, DecidableEq

/-- Embedding of the `while attempt < times` loop of the `error_api_method`
decorator.  `op n s` is the behaviour of the wrapped method on its `n`-th
attempt (0-based, `n` = the current value of `attempt`) from object state
`s`; the recursion is on `remaining = times - attempt`.  Returns the
decorator's result, the final object state, the final value of `attempt`
(the number of caught exceptions) and the list of retry delays slept.
When `remaining` hits 0 the `while` loop exits and the decorated call
returns `None`: this is `DecResult.fellThrough`. -/
def error_api_method_loop (op : Nat → CrawlState → AttemptOutcome × CrawlState) :
    Nat → Nat → CrawlState → List Nat → DecResult × CrawlState × Nat × List Nat
  | 0, attempt, s, sleeps => (.fellThrough, s, attempt, sleeps)
  | remaining + 1, attempt, s, sleeps =>
    match op attempt s with
    | (.ok, s') => (.ok, s', attempt, sleeps)
    | (.raise reason, s') =>
      match handle_http_error reason s' with
      | (s'', some msg, _) => (.assertionError msg, s'', attempt + 1, sleeps)
      | (s'', none, d) =>
        error_api_method_loop op remaining (attempt + 1) s'' (sleeps ++ [d])

/-- Embedding of a call of a method decorated with
`error_api_method(times)`. -/
def error_api_method (times : Nat)
    (op : Nat → CrawlState → AttemptOutcome × CrawlState) (s : CrawlState) :
    DecResult × CrawlState × Nat × List Nat :=
  error_api_method_loop op times 0 s []

/-- The reasons whose classification is fatal to the run (`QuotaExhausted`
for `quotaExceeded`, `AccessDenied` for `forbidden` and
`accessNotConfigured`). -/
def isFatalReason (reason : Option String) : Bool :=
  match reason with
  | none => false
  | some r => r = "quotaExceeded" || r = "forbidden" || r = "accessNotConfigured"

/-- A run of the decorator's loop against a method that always raises a
non-fatal reason `r` exhausts all `remaining` attempts, sleeping the fixed
5-unit delay between attempts, and then falls through: the decorated call
returns `None` and no error propagates. -/
theorem error_api_method_loop_const_raise (r : String)
    (h1 : r ≠ "quotaExceeded") (h2 : r ≠ "forbidden")
    (h3 : r ≠ "accessNotConfigured") :
    ∀ (remaining attempt : Nat) (s : CrawlState) (sleeps : List Nat),
      ∃ sF, error_api_method_loop (fun _ t => (.raise (some r), t))
          remaining attempt s sleeps
        = (.fellThrough, sF, attempt + remaining,
            sleeps ++ List.replicate remaining 5) := by
  intro remaining
  induction remaining with
  | zero =>
    intro attempt s sleeps
    exact ⟨s, by simp [error_api_method_loop]⟩
  | succ remaining ih =>
    intro attempt s sleeps
    have hh : handle_http_error (some r) s = (put_videoid_in_buffer_back s, none, 5) := by
      simp [handle_http_error, h1, h2, h3]
    obtain ⟨sF, hF⟩ := ih (attempt + 1) (put_videoid_in_buffer_back s) (sleeps ++ [5])
    refine ⟨sF, ?_⟩
    simp only [error_api_method_loop, hh, hF]
    rw [show attempt + 1 + remaining = attempt + (remaining + 1) from by omega,
      show (sleeps ++ [5]) ++ List.replicate remaining 5
          = sleeps ++ List.replicate (remaining + 1) 5 from by
        simp [List.replicate_succ]]

/-- C4 counterexample: a method that always fails with a retryable reason
is retried `RETRY_TIMES = 10` times with a 5-unit delay between attempts,
but when the bound is exceeded the decorated call silently returns `None`
(the `while attempt < times` loop of `error_api_method` just exits): no
`UnknownFatal` error is raised and nothing propagates to the caller. -/
theorem C4_unknown_fatal_counterexample :
    error_api_method RETRY_TIMES
        (fun _ t => (AttemptOutcome.raise (some "backendError"), t))
        (setup_comment_collector [])
      = (DecResult.fellThrough, setup_comment_collector [], 10,
          List.replicate 10 5) ∧
    (error_api_method RETRY_TIMES
        (fun _ t => (AttemptOutcome.raise (some "backendError"), t))
        (setup_comment_collector [])).1 = DecResult.fellThrough := by
  refine ⟨by decide, by decide⟩

/-- C4 (amended): a failure whose reason is not `quotaExceeded`,
`forbidden` or `accessNotConfigured` is re-attempted up to the bound
(default 10) with a fixed 5-unit delay between attempts; when the bound
is exceeded the decorated call returns `None` — the failure is silently
absorbed, and no fatal error propagates to the caller. -/
theorem C4_retry_bound_amended (r : String) (s : CrawlState)
    (h1 : r ≠ "quotaExceeded") (h2 : r ≠ "forbidden")
    (h3 : r ≠ "accessNotConfigured") :
    ∃ sF, error_api_method RETRY_TIMES (fun _ t => (.raise (some r), t)) s
        = (.fellThrough, sF, RETRY_TIMES, List.replicate RETRY_TIMES 5) := by
  obtain ⟨sF, hF⟩ :=
    error_api_method_loop_const_raise r h1 h2 h3 RETRY_TIMES 0 s []
  exact ⟨sF, by simpa [error_api_method] using hF⟩

/-- C4 witness: a concrete always-failing retryable reason on a fresh
state. -/
theorem C4_retry_bound_amended_witness :
    "backendError" ≠ "quotaExceeded" ∧ "backendError" ≠ "forbidden" ∧
    "backendError" ≠ "accessNotConfigured" ∧
    ∃ sF, error_api_method RETRY_TIMES
          (fun _ t => (.raise (some "backendError"), t))
          (setup_comment_collector [4, 5])
        = (.fellThrough, sF, RETRY_TIMES, List.replicate RETRY_TIMES 5) :=
  ⟨by decide, by decide, by decide,
    C4_retry_bound_amended "backendError" (setup_comment_collector [4, 5])
      (by decide) (by decide) (by decide)⟩

/-- C5: on any fatal classification (`quotaExceeded`, `forbidden`,
`accessNotConfigured`) while an id occupies the in-flight buffer,
`handle_http_error` raises an `AssertionError` and, before it does, the
id has been moved back to the front of the pending queue — the end of the
python list, which is exactly what the next `take` would pop — and removed
from the in-flight buffer. -/
theorem C5_requeue_on_fatal (reason : Option String) (s : CrawlState) (vid : Nat)
    (hfatal : isFatalReason reason = true)
    (hbuf : s.temp_id_storage.getLast? = some vid) :
    (handle_http_error reason s).2.1.isSome = true ∧
    (handle_http_error reason s).1.videos_ids_to_collect
      = s.videos_ids_to_collect ++ [vid] ∧
    (handle_http_error reason s).1.videos_ids_to_collect.getLast? = some vid ∧
    (handle_http_error reason s).1.temp_id_storage
      = s.temp_id_storage.dropLast := by
  cases reason with
  | none => simp [isFatalReason] at hfatal
  | some r =>
    have hput : put_videoid_in_buffer_back s =
        { s with temp_id_storage := s.temp_id_storage.dropLast,
                 videos_ids_to_collect := s.videos_ids_to_collect ++ [vid] } := by
      simp [put_videoid_in_buffer_back, hbuf]
    simp only [isFatalReason, Bool.or_eq_true, decide_eq_true_eq] at hfatal
    rcases hfatal with (h | h) | h <;>
      simp [handle_http_error, hput, h, List.getLast?_concat]

/-- C5 witness: the spec's scenario — pending was `[v1, v2, v3]` (take
order v3, v2, v1), v3 = 3 is in flight, and an `AccessDenied`
(`forbidden`) strikes: v3 is restored to the front of the queue. -/
theorem C5_requeue_on_fatal_witness :
    isFatalReason (some "forbidden") = true ∧
    ({ videos_ids_to_collect := [1, 2], temp_id_storage := [3],
       collected_video_ids := [], videos_with_comments_disabled := [],
       i := 0, responses_toplevel := [], flush_log := [] } :
        CrawlState).temp_id_storage.getLast? = some 3 ∧
    ((handle_http_error (some "forbidden")
        { videos_ids_to_collect := [1, 2], temp_id_storage := [3],
          collected_video_ids := [], videos_with_comments_disabled := [],
          i := 0, responses_toplevel := [], flush_log := [] }).2.1.isSome = true ∧
      (handle_http_error (some "forbidden")
        { videos_ids_to_collect := [1, 2], temp_id_storage := [3],
          collected_video_ids := [], videos_with_comments_disabled := [],
          i := 0, responses_toplevel := [], flush_log := [] }).1.videos_ids_to_collect
        = [1, 2] ++ [3] ∧
      (handle_http_error (some "forbidden")
        { videos_ids_to_collect := [1, 2], temp_id_storage := [3],
          collected_video_ids := [], videos_with_comments_disabled := [],
          i := 0, responses_toplevel := [], flush_log := [] }).1.videos_ids_to_collect.getLast?
        = some 3 ∧
      (handle_http_error (some "forbidden")
        { videos_ids_to_collect := [1, 2], temp_id_storage := [3],
          collected_video_ids := [], videos_with_comments_disabled := [],
          i := 0, responses_toplevel := [], flush_log := [] }).1.temp_id_storage
        = ([3] : List Nat).dropLast) :=
  ⟨by decide, by decide,
    C5_requeue_on_fatal (some "forbidden")
      { videos_ids_to_collect := [1, 2], temp_id_storage := [3],
        collected_video_ids := [], videos_with_comments_disabled := [],
        i := 0, responses_toplevel := [], flush_log := [] } 3
      (by decide) (by decide)⟩

/-- All ids tracked by the four Frontier containers of the state. -/
def allIds (s : CrawlState) : List Nat :=
  s.videos_ids_to_collect ++ s.temp_id_storage ++ s.collected_video_ids ++
    s.videos_with_comments_disabled

/-- How many of the four Frontier sets (Pending, InFlight, Collected,
Disabled) contain `v`. -/
def statusCount (s : CrawlState) (v : Nat) : Nat :=
  (if v ∈ s.videos_ids_to_collect then 1 else 0) +
  (if v ∈ s.temp_id_storage then 1 else 0) +
  (if v ∈ s.collected_video_ids then 1 else 0) +
  (if v ∈ s.videos_with_comments_disabled then 1 else 0)

/-- The id `v` is a member of exactly one of {Pending, InFlight,
Collected, Disabled}. -/
def inExactlyOne (s : CrawlState) (v : Nat) : Prop := statusCount s v = 1

instance (s : CrawlState) (v : Nat) : Decidable (inExactlyOne s v) := by
  unfold inExactlyOne
  infer_instance

/-- One successful loop iteration, written out: the taken id leaves the
pending list, its key joins `responses_toplevel`, bookkeeping appends it
to the collected list, empties the in-flight buffer again and bumps the
counter (flushing first when `i % 50 == 0`). -/
theorem comment_step_success (oracle : Nat → CollectOutcome) (s : CrawlState)
    (vid : Nat) (hpend : s.videos_ids_to_collect.getLast? = some vid)
    (horacle : oracle vid = CollectOutcome.success) :
    comment_step oracle s = .next
      { videos_ids_to_collect := s.videos_ids_to_collect.dropLast,
        temp_id_storage := s.temp_id_storage,
        collected_video_ids := s.collected_video_ids ++ [vid],
        videos_with_comments_disabled := s.videos_with_comments_disabled,
        i := s.i + 1,
        responses_toplevel := s.responses_toplevel ++ [vid],
        flush_log := if s.i % 50 = 0 then
            s.flush_log ++ [s.responses_toplevel ++ [vid]]
          else s.flush_log } := by
  simp [comment_step, get_video_id_to_collect, hpend,
    safe_collect_comments_video, collect_comments_video, horacle,
    bookkeeping_comments, save_comments, apply_ite, List.dropLast_concat]

/-- One loop iteration on an id whose comments are disabled, written out:
the error is absorbed, the id joins the disabled list, and bookkeeping
still appends it to the collected list, empties the buffer and bumps the
counter. -/
theorem comment_step_disabled (oracle : Nat → CollectOutcome) (s : CrawlState)
    (vid : Nat) (hpend : s.videos_ids_to_collect.getLast? = some vid)
    (horacle : oracle vid = CollectOutcome.httpError (some "commentsDisabled")) :
    comment_step oracle s = .next
      { videos_ids_to_collect := s.videos_ids_to_collect.dropLast,
        temp_id_storage := s.temp_id_storage,
        collected_video_ids := s.collected_video_ids ++ [vid],
        videos_with_comments_disabled :=
          s.videos_with_comments_disabled ++ [vid],
        i := s.i + 1,
        responses_toplevel := s.responses_toplevel,
        flush_log := if s.i % 50 = 0 then s.flush_log ++ [s.responses_toplevel]
          else s.flush_log } := by
  simp [comment_step, get_video_id_to_collect, hpend,
    safe_collect_comments_video, collect_comments_video, horacle,
    handle_disabled_comments_error, bookkeeping_comments, save_comments,
    apply_ite, List.dropLast_concat]

/-- C6 counterexample: processing a pending video whose comments are
disabled leaves its id in BOTH the Disabled and the Collected list —
`handle_disabled_comments_error` appends it to
`videos_with_comments_disabled`, yet `bookkeeping_comments` still appends
it to `collected_video_ids` — so the id is not a member of exactly one of
the four Frontier sets after that step. -/
theorem C6_exclusivity_counterexample :
    comment_step (fun _ => CollectOutcome.httpError (some "commentsDisabled"))
        (setup_comment_collector [7])
      = StepResult.next
          { videos_ids_to_collect := [], temp_id_storage := [],
            collected_video_ids := [7], videos_with_comments_disabled := [7],
            i := 1, responses_toplevel := [], flush_log := [[]] } ∧
    statusCount
        { videos_ids_to_collect := [], temp_id_storage := [],
          collected_video_ids := [7], videos_with_comments_disabled := [7],
          i := 1, responses_toplevel := [], flush_log := [[]] } 7 = 2 ∧
    ¬ inExactlyOne
        { videos_ids_to_collect := [], temp_id_storage := [],
          collected_video_ids := [7], videos_with_comments_disabled := [7],
          i := 1, responses_toplevel := [], flush_log := [[]] } 7 := by
  refine ⟨by decide, by decide, by decide⟩

/-- C6 (amended): a successful processing step preserves the invariant
that every tracked id is a member of exactly one of {Pending, InFlight,
Collected, Disabled}; the step that handles an id with disabled comments
does not — it leaves that id in both Disabled and Collected (all other
ids keep membership in exactly one set). -/
theorem C6_exclusivity_amended (oracle : Nat → CollectOutcome)
    (s : CrawlState) (vid : Nat)
    (hpend : s.videos_ids_to_collect.getLast? = some vid)
    (hnodup : s.videos_ids_to_collect.Nodup)
    (hex : ∀ w ∈ allIds s, inExactlyOne s w) :
    (oracle vid = CollectOutcome.success →
      ∃ s', comment_step oracle s = .next s' ∧
        ∀ w ∈ allIds s', inExactlyOne s' w) ∧
    (oracle vid = CollectOutcome.httpError (some "commentsDisabled") →
      ∃ s', comment_step oracle s = .next s' ∧
        vid ∈ s'.collected_video_ids ∧
        vid ∈ s'.videos_with_comments_disabled ∧
        ¬ inExactlyOne s' vid ∧
        ∀ w ∈ allIds s', w ≠ vid → inExactlyOne s' w) := by
  obtain ⟨pend', hdecomp⟩ := List.getLast?_eq_some_iff.mp hpend
  have hdrop : s.videos_ids_to_collect.dropLast = pend' := by
    rw [hdecomp]
    exact List.dropLast_concat
  have hvp : vid ∉ pend' := by
    intro hmem
    rw [hdecomp] at hnodup
    exact (List.nodup_append.mp hnodup).2.2 hmem (List.mem_singleton_self vid)
  have hvm : vid ∈ s.videos_ids_to_collect := by
    rw [hdecomp]
    simp
  have hx := hex vid (by simp [allIds, hvm])
  have hnt : vid ∉ s.temp_id_storage := by
    intro hmem
    unfold inExactlyOne statusCount at hx
    rw [if_pos hvm, if_pos hmem] at hx
    omega
  have hnc : vid ∉ s.collected_video_ids := by
    intro hmem
    unfold inExactlyOne statusCount at hx
    rw [if_pos hvm, if_pos hmem] at hx
    omega
  have hnd : vid ∉ s.videos_with_comments_disabled := by
    intro hmem
    unfold inExactlyOne statusCount at hx
    rw [if_pos hvm, if_pos hmem] at hx
    omega
  constructor
  · intro hsucc
    have hstep := comment_step_success oracle s vid hpend hsucc
    rw [hdrop] at hstep
    refine ⟨_, hstep, ?_⟩
    intro w hw
    by_cases hwv : w = vid
    · subst hwv
      simp [inExactlyOne, statusCount, hvp, hnt, hnc, hnd]
    · have hw_s : w ∈ allIds s := by
        simp only [allIds, hdecomp, List.mem_append, List.mem_singleton] at hw ⊢
        tauto
      have hxw := hex w hw_s
      have e1 : (w ∈ pend') ↔ (w ∈ s.videos_ids_to_collect) := by
        rw [hdecomp]
        simp [hwv]
      have e3 : (w ∈ s.collected_video_ids ++ [vid]) ↔
          (w ∈ s.collected_video_ids) := by
        simp [hwv]
      unfold inExactlyOne statusCount at hxw ⊢
      simp only [e1, e3]
      exact hxw
  · intro hdis
    have hstep := comment_step_disabled oracle s vid hpend hdis
    rw [hdrop] at hstep
    refine ⟨_, hstep, by simp, by simp, ?_, ?_⟩
    · simp [inExactlyOne, statusCount, hvp, hnt, hnc, hnd]
    · intro w hw hwv
      have hw_s : w ∈ allIds s := by
        simp only [allIds, hdecomp, List.mem_append, List.mem_singleton] at hw ⊢
        tauto
      have hxw := hex w hw_s
      have e1 : (w ∈ pend') ↔ (w ∈ s.videos_ids_to_collect) := by
        rw [hdecomp]
        simp [hwv]
      have e3 : (w ∈ s.collected_video_ids ++ [vid]) ↔
          (w ∈ s.collected_video_ids) := by
        simp [hwv]
      have e4 : (w ∈ s.videos_with_comments_disabled ++ [vid]) ↔
          (w ∈ s.videos_with_comments_disabled) := by
        simp [hwv]
      unfold inExactlyOne statusCount at hxw ⊢
      simp only [e1, e3, e4]
      exact hxw

/-- C6 witness: a mixed state with pending `[5, 7]`, one collected and
one disabled id; 7 is taken next, and its comments are disabled. -/
theorem C6_exclusivity_amended_witness :
    ({ videos_ids_to_collect := [5, 7], temp_id_storage := [],
       collected_video_ids := [9], videos_with_comments_disabled := [11],
       i := 3, responses_toplevel := [9], flush_log := [] } :
        CrawlState).videos_ids_to_collect.getLast? = some 7 ∧
    ({ videos_ids_to_collect := [5, 7], temp_id_storage := [],
       collected_video_ids := [9], videos_with_comments_disabled := [11],
       i := 3, responses_toplevel := [9], flush_log := [] } :
        CrawlState).videos_ids_to_collect.Nodup ∧
    (∀ w ∈ allIds
        { videos_ids_to_collect := [5, 7], temp_id_storage := [],
          collected_video_ids := [9], videos_with_comments_disabled := [11],
          i := 3, responses_toplevel := [9], flush_log := [] },
      inExactlyOne
        { videos_ids_to_collect := [5, 7], temp_id_storage := [],
          collected_video_ids := [9], videos_with_comments_disabled := [11],
          i := 3, responses_toplevel := [9], flush_log := [] } w) ∧
    (((fun v => if v = 7 then CollectOutcome.httpError (some "commentsDisabled")
          else CollectOutcome.success) 7
        = CollectOutcome.success →
      ∃ s', comment_step
          (fun v => if v = 7 then CollectOutcome.httpError (some "commentsDisabled")
            else CollectOutcome.success)
          { videos_ids_to_collect := [5, 7], temp_id_storage := [],
            collected_video_ids := [9], videos_with_comments_disabled := [11],
            i := 3, responses_toplevel := [9], flush_log := [] }
        = .next s' ∧ ∀ w ∈ allIds s', inExactlyOne s' w) ∧
    ((fun v => if v = 7 then CollectOutcome.httpError (some "commentsDisabled")
          else CollectOutcome.success) 7
        = CollectOutcome.httpError (some "commentsDisabled") →
      ∃ s', comment_step
          (fun v => if v = 7 then CollectOutcome.httpError (some "commentsDisabled")
            else CollectOutcome.success)
          { videos_ids_to_collect := [5, 7], temp_id_storage := [],
            collected_video_ids := [9], videos_with_comments_disabled := [11],
            i := 3, responses_toplevel := [9], flush_log := [] }
        = .next s' ∧
        7 ∈ s'.collected_video_ids ∧
        7 ∈ s'.videos_with_comments_disabled ∧
        ¬ inExactlyOne s' 7 ∧
        ∀ w ∈ allIds s', w ≠ 7 → inExactlyOne s' w)) :=
  ⟨by decide, by decide, by decide,
    C6_exclusivity_amended
      (fun v => if v = 7 then CollectOutcome.httpError (some "commentsDisabled")
        else CollectOutcome.success)
      { videos_ids_to_collect := [5, 7], temp_id_storage := [],
        collected_video_ids := [9], videos_with_comments_disabled := [11],
        i := 3, responses_toplevel := [9], flush_log := [] } 7
      (by decide) (by decide) (by decide)⟩

/-- C7: a fetch failing with the `commentsDisabled` reason adds the video
id to the Disabled list, is not treated as a run failure (the step result
is `next`, not `raised`), leaves every other id's membership in each of
the four Frontier sets unchanged, and the loop continues with the next
pending item (the pending list is exactly the old one with the handled id
popped). -/
theorem C7_disabled_routing (oracle : Nat → CollectOutcome) (s : CrawlState)
    (vid : Nat) (hpend : s.videos_ids_to_collect.getLast? = some vid)
    (horacle : oracle vid = CollectOutcome.httpError (some "commentsDisabled")) :
    ∃ s', comment_step oracle s = .next s' ∧
      s'.videos_with_comments_disabled
        = s.videos_with_comments_disabled ++ [vid] ∧
      vid ∈ s'.videos_with_comments_disabled ∧
      s'.videos_ids_to_collect = s.videos_ids_to_collect.dropLast ∧
      (∀ w, w ≠ vid →
        ((w ∈ s'.videos_ids_to_collect ↔ w ∈ s.videos_ids_to_collect) ∧
         (w ∈ s'.temp_id_storage ↔ w ∈ s.temp_id_storage) ∧
         (w ∈ s'.collected_video_ids ↔ w ∈ s.collected_video_ids) ∧
         (w ∈ s'.videos_with_comments_disabled ↔
           w ∈ s.videos_with_comments_disabled))) := by
  obtain ⟨pend', hdecomp⟩ := List.getLast?_eq_some_iff.mp hpend
  have hdrop : s.videos_ids_to_collect.dropLast = pend' := by
    rw [hdecomp]
    exact List.dropLast_concat
  have hstep := comment_step_disabled oracle s vid hpend horacle
  refine ⟨_, hstep, rfl, by simp, rfl, ?_⟩
  intro w hwv
  refine ⟨?_, Iff.rfl, by simp [hwv], by simp [hwv]⟩
  rw [hdrop, hdecomp]
  simp [hwv]

/-- C7 witness: the spec's scenario — the stub disables comments for
v2 = 2 while v1 = 1 remains pending; after the step, 2 is Disabled,
1 is untouched and next in line. -/
theorem C7_disabled_routing_witness :
    ({ videos_ids_to_collect := [1, 2], temp_id_storage := [],
       collected_video_ids := [], videos_with_comments_disabled := [],
       i := 0, responses_toplevel := [], flush_log := [] } :
        CrawlState).videos_ids_to_collect.getLast? = some 2 ∧
    (fun v => if v = 2 then CollectOutcome.httpError (some "commentsDisabled")
        else CollectOutcome.success) 2
      = CollectOutcome.httpError (some "commentsDisabled") ∧
    (∃ s', comment_step
        (fun v => if v = 2 then CollectOutcome.httpError (some "commentsDisabled")
          else CollectOutcome.success)
        { videos_ids_to_collect := [1, 2], temp_id_storage := [],
          collected_video_ids := [], videos_with_comments_disabled := [],
          i := 0, responses_toplevel := [], flush_log := [] }
      = .next s' ∧
      s'.videos_with_comments_disabled = [] ++ [2] ∧
      2 ∈ s'.videos_with_comments_disabled ∧
      s'.videos_ids_to_collect = ([1, 2] : List Nat).dropLast ∧
      (∀ w, w ≠ 2 →
        ((w ∈ s'.videos_ids_to_collect ↔ w ∈ ([1, 2] : List Nat)) ∧
         (w ∈ s'.temp_id_storage ↔ w ∈ ([] : List Nat)) ∧
         (w ∈ s'.collected_video_ids ↔ w ∈ ([] : List Nat)) ∧
         (w ∈ s'.videos_with_comments_disabled ↔ w ∈ ([] : List Nat))))) :=
  ⟨by decide, by decide,
    C7_disabled_routing
      (fun v => if v = 2 then CollectOutcome.httpError (some "commentsDisabled")
        else CollectOutcome.success)
      { videos_ids_to_collect := [1, 2], temp_id_storage := [],
        collected_video_ids := [], videos_with_comments_disabled := [],
        i := 0, responses_toplevel := [], flush_log := [] } 2
      (by decide) (by decide)⟩

/-! Embedding of the restore procedure (`YtEntityDataCheckpoint`) and of
the per-channel driver (`collect_data_channels`). -/

/-- The attributes of `YtEntityData` that
`YtEntityDataCheckpoint.handle_collected_comments` rebuilds. -/
structure RestoredState where
  video_ids : List Nat
  collected_video_ids : List Nat
  videos_ids_to_collect : List Nat
  temp_id_storage : List Nat
  i : Nat
  deriving Repr, DecidableEq

/-- Embedding of `handle_collected_comments`: `df_m_ids` is the video-id
column of the restored merged dataframe in its stored order,
`toplevel_keys` the key list of the restored top-level-comments
checkpoint.  `video_ids` is the reversed column, the collected list is the
key list, the pending list keeps (in order) the reversed ids that are not
collected, the in-flight buffer starts empty and the counter starts at the
number of collected ids. -/
def handle_collected_comments (df_m_ids : List Nat)
    (toplevel_keys : List Nat) : RestoredState :=
  let video_ids := df_m_ids.reverse
  { video_ids := video_ids,
    collected_video_ids := toplevel_keys,
    videos_ids_to_collect :=
      video_ids.filter (fun v => decide (v ∉ toplevel_keys)),
    temp_id_storage := [],
    i := toplevel_keys.length }

/-- C8: after a restore, Collected equals the key set of the loaded
top-level checkpoint, Pending equals the full reverse-chronological video
id list with the collected ids removed and the order of the remaining ids
preserved (it is a sublist of the full list), and the in-flight slot is
empty. -/
theorem C8_restore_rebuilt_state (df_m_ids toplevel_keys : List Nat) :
    (handle_collected_comments df_m_ids toplevel_keys).collected_video_ids
      = toplevel_keys ∧
    (handle_collected_comments df_m_ids toplevel_keys).temp_id_storage = [] ∧
    (handle_collected_comments df_m_ids toplevel_keys).video_ids
      = df_m_ids.reverse ∧
    ((handle_collected_comments df_m_ids toplevel_keys).videos_ids_to_collect).Sublist
      ((handle_collected_comments df_m_ids toplevel_keys).video_ids) ∧
    (∀ v, v ∈ (handle_collected_comments df_m_ids toplevel_keys).videos_ids_to_collect
      ↔ (v ∈ df_m_ids.reverse ∧ v ∉ toplevel_keys)) ∧
    (handle_collected_comments df_m_ids toplevel_keys).i
      = toplevel_keys.length := by
  refine ⟨rfl, rfl, rfl, List.filter_sublist _, ?_, rfl⟩
  intro v
  simp [handle_collected_comments, List.mem_filter]

/-- Embedding of the final phase of `restore_obj_from_checkpoint`
(`handle_collected_comments`), including the failure mode of its two
attribute accesses: `read_file` sets an attribute to `None` when the
corresponding artifact file does not exist (its `get_file` call raises
`AssertionError`), so `df_m` is `none` when no merged video dataframe
artifact exists and `responses_toplevel` is `none` when no
top-level-comments checkpoint file exists.  In either case the attribute
access (`None.video_ids` respectively `None.keys()`) raises an
`AttributeError` instead of restoring — in the order the source performs
the accesses. -/
def restore_handle_collected (df_m : Option (List Nat))
    (responses_toplevel : Option (List Nat)) : Except String RestoredState :=
  match df_m with
  | none => .error "AttributeError: NoneType has no attribute video_ids"
  | some df_m_ids =>
    match responses_toplevel with
    | none => .error "AttributeError: NoneType has no attribute keys"
    | some toplevel_keys => .ok (handle_collected_comments df_m_ids toplevel_keys)

/-- Whether the restore returned a rebuilt state. -/
def restoreOk : Except String RestoredState → Bool
  | .ok _ => true
  | .error _ => false

/-- C10: restoring succeeds exactly when both the merged video dataframe
artifact and the top-level-comments checkpoint exist on disk; with the
dataframe present but no top-level checkpoint, the restore raises (taking
`keys` of the `None` attribute) rather than restoring with an empty
Collected set. -/
theorem C10_restore_requires_checkpoint (df_m tl : Option (List Nat))
    (ids : List Nat) :
    (restoreOk (restore_handle_collected df_m tl) = true ↔
      df_m.isSome = true ∧ tl.isSome = true) ∧
    restore_handle_collected (some ids) none
      = .error "AttributeError: NoneType has no attribute keys" := by
  constructor
  · cases df_m <;> cases tl <;> simp [restore_handle_collected, restoreOk]
  · rfl

/-- Outcome of `collect_data_channel` for one channel: either the
`KeyError` of `get_upload_playlist_id` (no upload playlist) was caught and
the channel skipped — its video and comment phases never run — or the
playlist resolved and the video and comment phases ran. -/
inductive ChannelPhases where
  | skippedNoPlaylist
  | ranAllPhases (ids : List Nat)
  deriving Repr, DecidableEq

/-- Embedding of `collect_data_channel`: the `try/except KeyError` around
`collect_upload_playlist` absorbs exactly the no-upload-playlist failure
(`resolve channel = none`); otherwise `collect_videos`,
`setup_comment_collector` and `collect_comments` run (abstracted to the
fact that they run, `ranAllPhases`).  A fatal `AssertionError` raised by
`handle_http_error` inside a phase is modelled separately (see
`error_api_method`) and is out of this function's scope. -/
def collect_data_channel (resolve : Nat → Option (List Nat))
    (channel : Nat) : ChannelPhases :=
  match resolve channel with
  | none => .skippedNoPlaylist
  | some ids => .ranAllPhases ids

/-- Embedding of the `for channel in self.channels` loop of
`collect_data_channels`: the channels are processed in order and a
skipped channel does not abort the loop. -/
def collect_data_channels (resolve : Nat → Option (List Nat))
    (channels : List Nat) : List (Nat × ChannelPhases) :=
  channels.map (fun c => (c, collect_data_channel resolve c))

/-- C9: a channel whose upload playlist cannot be resolved because the
channel has no upload playlist is skipped — its video and comment phases
never run — and the multi-channel run continues with every remaining
channel; the failure does not abort the run. -/
theorem C9_no_playlist_channel_skipped (resolve : Nat → Option (List Nat))
    (ch : Nat) (pre post : List Nat) (hres : resolve ch = none) :
    collect_data_channel resolve ch = .skippedNoPlaylist ∧
    collect_data_channels resolve (pre ++ ch :: post)
      = collect_data_channels resolve pre ++ (ch, .skippedNoPlaylist)
          :: collect_data_channels resolve post ∧
    (collect_data_channels resolve (pre ++ ch :: post)).length
      = pre.length + 1 + post.length := by
  have h1 : collect_data_channel resolve ch = .skippedNoPlaylist := by
    simp [collect_data_channel, hres]
  refine ⟨h1, ?_, ?_⟩
  · simp [collect_data_channels, h1]
  · simp [collect_data_channels]
    omega

/-- C9 witness: channel 2 among three channels has no upload playlist;
channels 1 and 3 still run all phases. -/
theorem C9_no_playlist_channel_skipped_witness :
    (fun c => if c = 2 then none else some [c]) 2 = none ∧
    (collect_data_channel (fun c => if c = 2 then none else some [c]) 2
        = .skippedNoPlaylist ∧
      collect_data_channels (fun c => if c = 2 then none else some [c])
          ([1] ++ 2 :: [3])
        = collect_data_channels (fun c => if c = 2 then none else some [c]) [1]
            ++ (2, .skippedNoPlaylist)
            :: collect_data_channels (fun c => if c = 2 then none else some [c]) [3] ∧
      (collect_data_channels (fun c => if c = 2 then none else some [c])
          ([1] ++ 2 :: [3])).length
        = ([1] : List Nat).length + 1 + ([3] : List Nat).length) :=
  ⟨by decide,
    C9_no_playlist_channel_skipped (fun c => if c = 2 then none else some [c])
      2 [1] [3] (by decide)⟩

end YtCollector
